import Mathlib

/- Verification development for the GenBank <-> SBOL3 converter
   (sbol_utilities/sbol3_genbank_conversion.py and convert_to_genbank.py),
   shallow-embedded in Lean.  Python dictionaries are modelled as partial
   maps (`String → Option _`) or ordered association lists, Python `None`
   as `Option.none`, and raised exceptions as `Except.error` carrying the
   exception kind. -/

namespace GenBankSBOL3

/- ===== Constants =====
   Mirrors the pysbol3 constants used by the converter and the converter
   class constants (sbol3_genbank_conversion.py lines 23-43). -/

/-- Mirrors sbol3.SBO_DNA, the DNA component type URI. -/
def SBO_DNA : String := "https://identifiers.org/SBO:0000251"

/-- Mirrors sbol3.SO_LINEAR. -/
def SO_LINEAR : String := "https://identifiers.org/SO:0000987"

/-- Mirrors sbol3.SO_CIRCULAR. -/
def SO_CIRCULAR : String := "https://identifiers.org/SO:0000988"

/-- Mirrors sbol3.SO_FORWARD, the inline orientation URI. -/
def SO_FORWARD : String := "https://identifiers.org/SO:0001030"

/-- Mirrors sbol3.SO_REVERSE, the reverse-complement orientation URI. -/
def SO_REVERSE : String := "https://identifiers.org/SO:0001031"

/-- Mirrors sbol3.SO_ENGINEERED_REGION, the single role given to imported Components. -/
def SO_ENGINEERED_REGION : String := "https://identifiers.org/SO:0000804"

/-- Mirrors sbol3.SO_NS with its trailing three characters removed, as computed by
the source via slicing (line 690): the URI namespace to which bare SO terms are appended. -/
def SO_URI_HEAD : String := "https://identifiers.org/"

/-- Mirrors GenBank_SBOL3_Converter.DEFAULT_SO_TERM (line 37). -/
def DEFAULT_SO_TERM : String := "SO:0000110"

/-- Mirrors GenBank_SBOL3_Converter.DEFAULT_GB_TERM (line 38). -/
def DEFAULT_GB_TERM : String := "misc_feature"

/-- Mirrors GenBank_SBOL3_Converter.DEFAULT_GB_SEQ_VERSION (line 35). -/
def DEFAULT_GB_SEQ_VERSION : Int := 1

/-- Mirrors GenBank_SBOL3_Converter.COMP_TYPES (line 23). -/
def COMP_TYPES : List String := [SBO_DNA]

/- ===== GBK -> SGM import: record topology (convert_genbank_to_sbol3, lines 290-299) ===== -/

/-- Mirrors the topology determination in convert_genbank_to_sbol3 (lines 290-295):
`topology = "linear"; if "topology" in record.annotations: topology = ...;
elif record.annotations['data_file_division'] in ['circular', 'linear']: topology = ...`.
The `elif` indexes the annotations dict directly, so a record whose annotations lack
`data_file_division` raises a KeyError, modelled as `Except.error`. -/
def recordTopology (annotations : String → Option String) : Except String String :=
  match annotations "topology" with
  | some t => Except.ok t
  | none =>
    match annotations "data_file_division" with
    | none => Except.error "KeyError: data_file_division"
    | some d =>
      if d = "circular" ∨ d = "linear" then Except.ok d else Except.ok "linear"

/-- Mirrors lines 296-299: `[sbol3.SO_LINEAR]` when the topology string equals
`"linear"`, `[sbol3.SO_CIRCULAR]` otherwise. -/
def extraCompTypes (topology : String) : List String :=
  if topology = "linear" then [SO_LINEAR] else [SO_CIRCULAR]

/-- The `types` given to the new Component (line 303): `COMP_TYPES + extra_comp_types`. -/
def recordCompTypes (annotations : String → Option String) : Except String (List String) :=
  (recordTopology annotations).map (fun t => COMP_TYPES ++ extraCompTypes t)

/- ===== SGM -> GBK export: per-Component record creation (convert_sbol3_to_genbank, lines 383-417) ===== -/

/-- A Sequence object in the SBOL3 document (only the field the exporter reads). -/
structure SbolSequence where
  elements : String
deriving DecidableEq

/-- A Component as seen by the record-creation loop of convert_sbol3_to_genbank:
its display id, description and the list of sequence references. -/
structure SbolComponent where
  display_id : String
  description : Option String
  sequences : List String
deriving DecidableEq

/-- The SeqRecord data produced for one Component by the loop body, plus the
`logs[obj]` status flag set at line 416.  `seq = none` models a BioPython
SeqRecord carrying `seq=None`. -/
structure SeqRecordStub where
  seq : Option String
  id : String
  description : Option String
  name : String
  status : Bool
deriving DecidableEq

/-- Mirrors the per-Component body of convert_sbol3_to_genbank (lines 388-417).
`find` models `doc.find` restricted to Sequence objects: it returns the Sequence a
reference resolves to, or `none` for a dangling reference.  The Python code sets
`seq = None`, overwrites it only when the Component has exactly one sequence
reference that resolves, raises ValueError when there is more than one reference,
and then unconditionally builds the SeqRecord and sets `logs[obj] = True`. -/
def processComponent (find : String → Option SbolSequence) (obj : SbolComponent) :
    Except String SeqRecordStub := do
  let seq : Option String ←
    if obj.sequences ≠ [] ∧ obj.sequences.length = 1 then
      match obj.sequences with
      | [sref] =>
        match find sref with
        | some obj_seq => pure (some obj_seq.elements.toUpper)
        | none => pure none
      | _ => pure none
    else if obj.sequences.length > 1 then
      Except.error ("ValueError: Component `" ++ obj.display_id ++
        "` of given SBOL3 document has more than 1 sequnces. This is invalid; a component may only have 1 or 0 sequences.")
    else
      pure none
  pure { seq := seq, id := obj.display_id, description := obj.description,
         name := obj.display_id, status := true }

/- Concrete components used by counterexamples and witnesses. -/

/-- A Component with no Sequence reference at all. -/
def compNoSeq : SbolComponent :=
  { display_id := "c0", description := none, sequences := [] }

/-- A Component whose single sequence reference does not resolve. -/
def compDangling : SbolComponent :=
  { display_id := "c1", description := some "a part", sequences := ["https://x/s1"] }

/-- A Component with two sequence references. -/
def compTwoSeqs : SbolComponent :=
  { display_id := "c2", description := none, sequences := ["https://x/s1", "https://x/s2"] }

/-- An annotations map with neither `topology` nor `data_file_division`. -/
def annEmpty : String → Option String := fun _ => none

/-- An annotations map with only `topology = circular`. -/
def annTopoCircular : String → Option String :=
  fun k => if k = "topology" then some "circular" else none

/-- An annotations map with only `data_file_division = circular`. -/
def annDivCircular : String → Option String :=
  fun k => if k = "data_file_division" then some "circular" else none

/- ===== Location model and feature import (_handle_features_gb_to_sbol, lines 639-721) ===== -/

/-- The three position classes of a GenBank location endpoint
(BeforePosition / ExactPosition / AfterPosition). -/
inductive PositionClass
  | before
  | exact
  | after
deriving DecidableEq

/-- Mirrors SBOL_LOCATION_POSITION (line 32): BeforePosition maps to 0,
ExactPosition to 1, AfterPosition to 2. -/
def SBOL_LOCATION_POSITION : PositionClass → Int
  | PositionClass.before => 0
  | PositionClass.exact => 1
  | PositionClass.after => 2

/-- Mirrors GENBANK_LOCATION_POSITION (line 33): 0 maps to BeforePosition,
1 to ExactPosition, 2 to AfterPosition; any other integer is a KeyError (none). -/
def GENBANK_LOCATION_POSITION (i : Int) : Option PositionClass :=
  if i = 0 then some PositionClass.before
  else if i = 1 then some PositionClass.exact
  else if i = 2 then some PositionClass.after
  else none

/-- One part of a parsed GenBank feature location (a BioPython FeatureLocation):
integer endpoints, strand, and the position classes of the two endpoints. -/
structure GBLocPart where
  start : Int
  end_ : Int
  strand : Option Int
  startClass : PositionClass
  endClass : PositionClass
deriving DecidableEq

/-- A parsed GenBank feature as consumed by _handle_features_gb_to_sbol: its type,
its ordered qualifier mapping (each key holding a list of string values), the parts
of its location, and its strand. -/
structure GBFeature where
  type : String
  qualifiers : List (String × List String)
  locationParts : List GBLocPart
  strand : Option Int
deriving DecidableEq

/-- An SBOL3 location as created by the converter: either a Cut or a
Range_GenBank_Extension (lines 178-189), the Range carrying the two optional
integer fuzz codes start_position / end_position. -/
inductive SbolLocation
  | cut (at_ : Int) (orientation : String)
  | range (start : Int) (end_ : Int) (orientation : String)
      (start_position : Option Int) (end_position : Option Int)
deriving DecidableEq

/-- Feature_GenBank_Extension (lines 164-175): a SequenceFeature plus the two
parallel ordered qualifier lists. -/
structure FeatureGenBankExtension where
  name : String
  roles : List String
  orientation : String
  locations : List SbolLocation
  qualifier_key : List String
  qualifier_value : List String
deriving DecidableEq

/-- Ordered-dict lookup, modelling `k in d` / `d[k]` on a feature's qualifiers. -/
def lookupQual (qualifiers : List (String × List String)) (k : String) :
    Option (List String) :=
  (qualifiers.find? (fun p => p.1 == k)).map (fun p => p.2)

/-- Mirrors the location loop of _handle_features_gb_to_sbol (lines 659-688):
each part becomes a Cut when start == end and an extended Range otherwise; for a
Range the fuzzy flag is updated by the exact Python condition
`if not fuzzy_feature and locs.end_position != 1 or locs.start_position != 1`. -/
def convertLocParts : List GBLocPart → Bool → List SbolLocation →
    (List SbolLocation × Bool)
  | [], fuzzy_feature, acc => (acc, fuzzy_feature)
  | gb_loc :: rest, fuzzy_feature, acc =>
    let feat_loc_orientation := if gb_loc.strand = some (-1) then SO_REVERSE else SO_FORWARD
    if gb_loc.start = gb_loc.end_ then
      convertLocParts rest fuzzy_feature
        (acc ++ [SbolLocation.cut gb_loc.start feat_loc_orientation])
    else
      let end_position := SBOL_LOCATION_POSITION gb_loc.endClass
      let start_position := SBOL_LOCATION_POSITION gb_loc.startClass
      let fuzzy' :=
        if (!fuzzy_feature && (end_position != 1)) || (start_position != 1) then true
        else fuzzy_feature
      convertLocParts rest fuzzy'
        (acc ++ [SbolLocation.range gb_loc.start gb_loc.end_ feat_loc_orientation
          (some start_position) (some end_position)])

/-- Mirrors the warning branch of the role lookup (lines 693-696): the warning
message interpolates `gb_feat.qualifiers['label'][0]`, which raises a KeyError when
the feature has no label qualifier (and an IndexError when the label value list is
empty); otherwise the warning is logged and the default SO term is used. -/
def defaultRoleWithWarning (gb_feat : GBFeature) : Except String String :=
  match lookupQual gb_feat.qualifiers "label" with
  | none => Except.error "KeyError: label"
  | some [] => Except.error "IndexError: list index out of range"
  | some (_ :: _) => Except.ok (SO_URI_HEAD ++ DEFAULT_SO_TERM)

/-- Mirrors one iteration of the feature loop of _handle_features_gb_to_sbol
(lines 650-721): name from the label qualifier or the `_converted_feature_<i>`
placeholder, locations and fuzzy flag from the location parts, role from the
gb2so map (`if self.gb2so_map.get(...)` — a missing or empty mapping falls to the
warning branch), orientation from the strand, and the indexed qualifier lists.
Returns the built extended feature together with its fuzzy flag. -/
def importFeature (gb2so : String → Option String) (ind : Nat) (gb_feat : GBFeature) :
    Except String (FeatureGenBankExtension × Bool) := do
  let feat_name ←
    match lookupQual gb_feat.qualifiers "label" with
    | some [] => Except.error "IndexError: list index out of range"
    | some (v :: _) => Except.ok v
    | none => Except.ok ("_converted_feature_" ++ toString ind)
  let res := convertLocParts gb_feat.locationParts false []
  let feat_role ←
    match gb2so gb_feat.type with
    | some so =>
      if so = "" then defaultRoleWithWarning gb_feat
      else Except.ok (SO_URI_HEAD ++ so)
    | none => defaultRoleWithWarning gb_feat
  let feat_orientation := if gb_feat.strand = some (-1) then SO_REVERSE else SO_FORWARD
  let qualifier_value ← (gb_feat.qualifiers.enum).mapM (fun p =>
    match p.2.2 with
    | v :: _ => Except.ok (toString p.1 ++ ":" ++ v)
    | [] => Except.error "IndexError: list index out of range")
  Except.ok ({ name := feat_name, roles := [feat_role], orientation := feat_orientation,
               locations := res.1,
               qualifier_key := (gb_feat.qualifiers.enum).map (fun p => toString p.1 ++ ":" ++ p.2.1),
               qualifier_value := qualifier_value }, res.2)

/-- Mirrors the routing at lines 718-721: a non-fuzzy feature is appended to
comp.features, a fuzzy one to comp.fuzzy_features. -/
def routeStep (features fuzzy_features : List FeatureGenBankExtension)
    (r : FeatureGenBankExtension × Bool) :
    List FeatureGenBankExtension × List FeatureGenBankExtension :=
  if r.2 = false then (features ++ [r.1], fuzzy_features)
  else (features, fuzzy_features ++ [r.1])

/-- The whole feature pass of _handle_features_gb_to_sbol for one record:
enumerate the features, import each, route it by its fuzzy flag. -/
def handleFeaturesGbToSbol (gb2so : String → Option String) (features : List GBFeature) :
    Except String (List FeatureGenBankExtension × List FeatureGenBankExtension) :=
  (features.enum).foldlM (fun acc p => do
    let r ← importFeature gb2so p.1 p.2
    Except.ok (routeStep acc.1 acc.2 r)) ([], [])

/- ===== SGM -> GBK export: feature role lookup (_handle_features_sbol_to_gb, lines 793-806) ===== -/

/-- Mirrors `obj_feat_role.index(":", 6)` (line 798): the index of the first
occurrence of the character at or after position 6, none (a ValueError) when
there is no such occurrence. -/
def strIndexFrom (s : String) (c : Char) (start : Nat) : Option Nat :=
  (List.range s.data.length).find? (fun i => decide (start ≤ i) && (s.data.get? i == some c))

/-- Mirrors lines 793-806 of _handle_features_sbol_to_gb: take the feature's first
role URI, slice it from two characters before the first colon at or after index 6
(recovering the bare `SO:NNNNNNN` term), and look the term up in so2gb_map
(`if self.so2gb_map.get(...)`), falling back to the default GenBank term
misc_feature on a missing or empty mapping. -/
def exportFeatureRole (so2gb : String → Option String) (roles : List String) :
    Except String String := do
  let obj_feat_role ←
    match roles with
    | r :: _ => Except.ok r
    | [] => Except.error "IndexError: list index out of range"
  let i ←
    match strIndexFrom obj_feat_role ':' 6 with
    | some i => Except.ok i
    | none => Except.error "ValueError: substring not found"
  let term := String.mk (obj_feat_role.data.drop (i - 2))
  match so2gb term with
  | some gb => if gb = "" then Except.ok DEFAULT_GB_TERM else Except.ok gb
  | none => Except.ok DEFAULT_GB_TERM

/- Concrete inputs for the C5 evaluation. -/

/-- An ontology map with no entries at all. -/
def emptyOntologyMap : String → Option String := fun _ => none

/-- A location part with exact endpoints (1..300, forward). -/
def exactPart : GBLocPart :=
  { start := 1, end_ := 300, strand := some 1,
    startClass := PositionClass.exact, endClass := PositionClass.exact }

/-- A feature of an unknown GenBank type carrying no label qualifier. -/
def featUnknownNoLabel : GBFeature :=
  { type := "weird_type", qualifiers := [("note", ["hello"])],
    locationParts := [exactPart], strand := some 1 }

/-- A feature of an unknown GenBank type carrying a label qualifier. -/
def featUnknownWithLabel : GBFeature :=
  { type := "weird_type", qualifiers := [("label", ["gene1"])],
    locationParts := [exactPart], strand := some 1 }

/-- A location part with a BeforePosition start and an ExactPosition end
(GenBank notation like `<1..300`). -/
def beforeStartPart : GBLocPart :=
  { start := 1, end_ := 300, strand := some 1,
    startClass := PositionClass.before, endClass := PositionClass.exact }

/-- A CDS feature whose single location part is `beforeStartPart`. -/
def featBeforeStart : GBFeature :=
  { type := "CDS", qualifiers := [("label", ["g"])],
    locationParts := [beforeStartPart], strand := some 1 }

/-- A gb2so map holding only the CDS entry. -/
def gb2soCdsOnly : String → Option String :=
  fun t => if t = "CDS" then some "SO:0000316" else none

/-- The extended feature the importer builds from `featBeforeStart`. -/
def featBeforeStartImported : FeatureGenBankExtension :=
  { name := "g", roles := [SO_URI_HEAD ++ "SO:0000316"], orientation := SO_FORWARD,
    locations := [SbolLocation.range 1 300 SO_FORWARD (some 0) (some 1)],
    qualifier_key := ["0:label"], qualifier_value := ["0:g"] }

/- ===== Structured comments and extra-property reset
   (_reset_extra_properties_in_genbank, lines 539-636) ===== -/

/-- Mirrors `int(t.split("::", 1)[0])` (lines 625-626): the numeric sort key of an
indexed-prefix entry; none models a ValueError raised by int(). -/
def numKey (t : String) : Option Int :=
  match t.splitOn "::" with
  | [] => none
  | p :: _ => p.toInt?

/-- Mirrors `t.split("::", 1)[1]` (lines 628-629): the part after the first `::`,
an IndexError (none) when the delimiter is absent. -/
def afterDoubleColon (t : String) : Option String :=
  match t.splitOn "::" with
  | _ :: rest :: more => some (String.intercalate "::" (rest :: more))
  | _ => none

/-- Mirrors `sorted(list(l), key=lambda t: int(t.split("::", 1)[0]))`
(lines 625-626): a stable ascending sort by the numeric key (Python's stable sort
is modelled by the stable insertionSort); none models a ValueError raised while
computing a key. -/
def sortByNumKey (l : List String) : Option (List String) :=
  if l.all (fun t => (numKey t).isSome) then
    some (l.insertionSort (fun a b => (numKey a).getD 0 ≤ (numKey b).getD 0))
  else none

/-- Insertion-ordered dict assignment `d[k] = v` (an existing key keeps its
position and is overwritten; a new key is appended). -/
def odUpdate (acc : List (String × String)) (k v : String) : List (String × String) :=
  if acc.any (fun p => p.1 == k) then
    acc.map (fun p => if p.1 == k then (k, v) else p)
  else acc ++ [(k, v)]

/-- Mirrors the loop `for ind in range(total_keys)` at lines 627-630: the sorted
keys list is walked structurally (its length is total_keys); at each step the
sorted values list is indexed at the same position — an IndexError (none) once it
runs out — and both entries have their `N::` prefixes stripped (an IndexError when
an entry has no `::`). -/
def structuredPairsLoop : List String → List String → List (String × String) →
    Option (List (String × String))
  | [], _, acc => some acc
  | k :: ks, vs, acc =>
    match afterDoubleColon k with
    | none => none
    | some key =>
      match vs with
      | [] => none
      | v :: vs' =>
        match afterDoubleColon v with
        | none => none
        | some value => structuredPairsLoop ks vs' (odUpdate acc key value)

/-- Mirrors lines 623-630 for one StructuredComment side-car: sort the two indexed
lists numerically, then rebuild the ordered key/value mapping by walking
`range(total_keys)` — with no check that the two lists have equal length. -/
def rebuildStructuredComment (structured_keys structured_values : List String) :
    Option (List (String × String)) :=
  match sortByNumKey structured_keys with
  | none => none
  | some sortedKeys =>
    match sortByNumKey structured_values with
    | none => none
    | some sortedValues => structuredPairsLoop sortedKeys sortedValues []

/-- CustomReferenceProperty (lines 125-144): the scalar side-car fields plus the
owned Range/Cut locations. -/
structure CustomReferenceProperty where
  authors : Option String
  comment : Option String
  journal : Option String
  consrtm : Option String
  title : Option String
  medline_id : Option String
  pubmed_id : Option String
  component : Option String
  location : List SbolLocation
deriving DecidableEq

/-- CustomStructuredCommentProperty (lines 147-161). -/
structure CustomStructuredCommentProperty where
  heading : Option String
  component : Option String
  structured_keys : List String
  structured_values : List String
deriving DecidableEq

/-- The extra scalar slots of Component_GenBank_Extension (lines 192-219). -/
structure ComponentGenBankExtension where
  display_id : String
  description : Option String
  genbank_seq_version : Option Int
  genbank_date : Option String
  genbank_division : Option String
  genbank_locus : Option String
  genbank_molecule_type : Option String
  genbank_organism : Option String
  genbank_source : Option String
  genbank_topology : Option String
  genbank_gi : Option String
  genbank_comment : Option String
  genbank_dblink : Option String
  genbank_record_id : Option String
  genbank_taxonomy : Option String
  genbank_keywords : Option String
  genbank_accessions : List String
deriving DecidableEq

/-- One FeatureLocation of a rebuilt GenBank Reference (lines 608-613). -/
structure RefFeatureLocation where
  start : Int
  end_ : Int
  strand : Int
deriving DecidableEq

/-- A rebuilt GenBank Reference object (lines 588-614). -/
structure GBReference where
  title : Option String
  authors : Option String
  comment : Option String
  journal : Option String
  consrtm : Option String
  pubmed_id : Option String
  medline_id : Option String
  location : List RefFeatureLocation
deriving DecidableEq

/-- Mirrors lines 597-613 for one side-car location: strand is 1 unless the
orientation is SO_REVERSE (the unknown-orientation error is commented out in the
source); a Cut stored in the side-car has no start/end attributes, an
AttributeError. -/
def rebuildRefLocation (loc : SbolLocation) : Except String RefFeatureLocation :=
  match loc with
  | SbolLocation.cut _ _ => Except.error "AttributeError: Cut object has no attribute start"
  | SbolLocation.range start end_ orientation _ _ =>
    Except.ok { start := start, end_ := end_,
                strand := if orientation = SO_REVERSE then (-1 : Int) else 1 }

/-- Mirrors lines 588-614: rebuild one GenBank Reference from a side-car. -/
def rebuildReference (reference : CustomReferenceProperty) : Except String GBReference := do
  let locs ← reference.location.mapM rebuildRefLocation
  Except.ok { title := reference.title, authors := reference.authors,
              comment := reference.comment, journal := reference.journal,
              consrtm := reference.consrtm, pubmed_id := reference.pubmed_id,
              medline_id := reference.medline_id, location := locs }

/-- The kinds of values the reset function stores into a SeqRecord's annotations. -/
inductive AnnValue
  | txt (v : Option String)
  | strs (v : List String)
  | intOpt (v : Option Int)
  | intVal (v : Int)
  | refs (v : List GBReference)
  | structured (v : List (Option String × List (String × String)))
deriving DecidableEq

/-- Python dict assignment on the insertion-ordered annotations mapping. -/
def setAnn (anns : List (String × AnnValue)) (k : String) (v : AnnValue) :
    List (String × AnnValue) :=
  if anns.any (fun p => p.1 == k) then
    anns.map (fun p => if p.1 == k then (k, v) else p)
  else anns ++ [(k, v)]

/-- Lookup in the annotations mapping. -/
def lookupAnn (anns : List (String × AnnValue)) (k : String) : Option AnnValue :=
  (anns.find? (fun p => p.1 == k)).map (fun p => p.2)

/-- Truthiness of an optional text property (Python None and the empty string are
falsy). -/
def truthy : Option String → Bool
  | none => false
  | some s => s != ""

/-- Python `sorted` on a list of strings: stable ascending sort by code points. -/
def sortedStrings (l : List String) : List String :=
  l.insertionSort (fun a b => a.data ≤ b.data)

/-- The parts of the SeqRecord mutated by _reset_extra_properties_in_genbank. -/
structure SeqRecAnnots where
  id : Option String
  dbxrefs : List String
  annotations : List (String × AnnValue)
deriving DecidableEq

/-- Mirrors _reset_extra_properties_in_genbank (lines 539-636) for a Component
built by this converter's registered builders (such Components are always
Component_GenBank_Extension instances, so the isinstance branch at line 546 is
taken).  The `references` and `structured_comments` arguments are the side-car
lists associated to this Component; Python's `if obj in references` membership
test corresponds to the list being non-empty, since the dicts built at lines
352-369 only ever hold non-empty lists.  Every assignment is performed in source
order; the final `sequence_version` assignment at line 636 sits outside the
isinstance block and always runs last.  The duplicated structured-comment
headings of an OrderedDict are modelled as an association list in insertion
order. -/
def resetExtraPropertiesInGenbank (obj : ComponentGenBankExtension)
    (references : List CustomReferenceProperty)
    (structured_comments : List CustomStructuredCommentProperty) :
    Except String SeqRecAnnots := do
  let dbxrefs :=
    if truthy obj.genbank_dblink then (obj.genbank_dblink.getD "").splitOn "::" else []
  let a := setAnn [] "date" (AnnValue.txt obj.genbank_date)
  let a := setAnn a "data_file_division" (AnnValue.txt obj.genbank_division)
  let a := if truthy obj.genbank_keywords then
      setAnn a "keywords" (AnnValue.strs ((obj.genbank_keywords.getD "").splitOn ","))
    else a
  let a := setAnn a "molecule_type" (AnnValue.txt obj.genbank_molecule_type)
  let a := setAnn a "organism" (AnnValue.txt obj.genbank_organism)
  let a := if obj.genbank_source ≠ some "" then
      setAnn a "source" (AnnValue.txt obj.genbank_source)
    else a
  let a := if truthy obj.genbank_taxonomy then
      setAnn a "taxonomy" (AnnValue.strs ((obj.genbank_taxonomy.getD "").splitOn ","))
    else a
  let a := setAnn a "topology" (AnnValue.txt obj.genbank_topology)
  let a := if truthy obj.genbank_gi then setAnn a "gi" (AnnValue.txt obj.genbank_gi) else a
  let a := setAnn a "accessions" (AnnValue.strs (sortedStrings obj.genbank_accessions))
  let a := setAnn a "sequnce_version" (AnnValue.intOpt obj.genbank_seq_version)
  let a ←
    if references.isEmpty then pure a else do
      let refs ← references.mapM rebuildReference
      pure (setAnn a "references" (AnnValue.refs refs))
  let a := if truthy obj.genbank_comment then
      setAnn a "comment" (AnnValue.txt obj.genbank_comment)
    else a
  let a ←
    if structured_comments.isEmpty then pure a else do
      let scs ← structured_comments.mapM (fun sc =>
        match rebuildStructuredComment sc.structured_keys sc.structured_values with
        | some pairs => Except.ok (sc.heading, pairs)
        | none => (Except.error "IndexError: list index out of range" :
            Except String (Option String × List (String × String))))
      pure (setAnn a "structured_comment" (AnnValue.structured scs))
  Except.ok { id := obj.genbank_record_id, dbxrefs := dbxrefs,
              annotations := setAnn a "sequence_version" (AnnValue.intVal DEFAULT_GB_SEQ_VERSION) }

/-- A concrete extended Component carrying a stored sequence version of 5. -/
def compExtSample : ComponentGenBankExtension :=
  { display_id := "c4", description := none, genbank_seq_version := some 5,
    genbank_date := some "01-JAN-2020", genbank_division := none, genbank_locus := none,
    genbank_molecule_type := some "DNA", genbank_organism := none, genbank_source := none,
    genbank_topology := some "linear", genbank_gi := none, genbank_comment := none,
    genbank_dblink := none, genbank_record_id := some "c4.1", genbank_taxonomy := none,
    genbank_keywords := none, genbank_accessions := ["AB123"] }

/- ===== SGM -> GBK export: location building and sorting
   (_handle_features_sbol_to_gb, lines 746-790 and 821-824) ===== -/

/-- A BioPython FeatureLocation as built on export (lines 771-775): integer
endpoints with their position classes, and an integer strand. -/
structure FeatLocPart where
  start : Int
  startClass : PositionClass
  end_ : Int
  endClass : PositionClass
  strand : Int
deriving DecidableEq

/-- Mirrors lines 750-776 for one SBOL3 location: the strand is 1 unless the
location's orientation is SO_REVERSE, and any other orientation than
forward/reverse is a ValueError; the start and end positions are Exact unless the
Range carries integer position codes, which are looked up in
GENBANK_LOCATION_POSITION (a KeyError on a code outside 0..2); a Cut has no
start/end attributes, an AttributeError. -/
def buildLocPart (loc : SbolLocation) : Except String FeatLocPart := do
  let orientation :=
    match loc with
    | SbolLocation.cut _ o => o
    | SbolLocation.range _ _ o _ _ => o
  let feat_strand ←
    if orientation = SO_REVERSE then pure (-1 : Int)
    else if orientation = SO_FORWARD then pure (1 : Int)
    else (Except.error "ValueError: invalid orientation" : Except String Int)
  match loc with
  | SbolLocation.cut _ _ =>
    Except.error "AttributeError: Cut object has no attribute end"
  | SbolLocation.range start end_ _ sp ep => do
    let endClass ←
      match ep with
      | none => pure PositionClass.exact
      | some code =>
        match GENBANK_LOCATION_POSITION code with
        | some pc => pure pc
        | none => (Except.error "KeyError: invalid position code" : Except String PositionClass)
    let startClass ←
      match sp with
      | none => pure PositionClass.exact
      | some code =>
        match GENBANK_LOCATION_POSITION code with
        | some pc => pure pc
        | none => (Except.error "KeyError: invalid position code" : Except String PositionClass)
    Except.ok { start := start, startClass := startClass, end_ := end_,
                endClass := endClass, strand := feat_strand }

/-- The sort key `(loc.start, loc.end, loc.strand)` of lines 780-782, compared as a
lexicographic tuple; BioPython positions compare as their integer values. -/
def locSortKey (p : FeatLocPart) : Lex (Int × Lex (Int × Int)) :=
  toLex (p.start, toLex (p.end_, p.strand))

/-- Ascending tuple-key comparison of `feat_loc_parts.sort(key=...)`. -/
def locLeAsc (a b : FeatLocPart) : Prop := locSortKey a ≤ locSortKey b

/-- The comparison realising `sort(key=..., reverse=True)`: stable descending. -/
def locLeDesc (a b : FeatLocPart) : Prop := locSortKey b ≤ locSortKey a

instance : DecidableRel locLeAsc :=
  fun a b => inferInstanceAs (Decidable (locSortKey a ≤ locSortKey b))

instance : DecidableRel locLeDesc :=
  fun a b => inferInstanceAs (Decidable (locSortKey b ≤ locSortKey a))

/-- The GenBank location object finally attached to the emitted feature
(lines 747 and 785-790): a CompoundLocation (join) when more than one part, the
single FeatureLocation when exactly one, and the initial None when the feature
had no locations at all. -/
inductive GBFeatureLocation
  | noneLoc
  | single (p : FeatLocPart)
  | compound (parts : List FeatLocPart) (operator : String)
deriving DecidableEq

/-- Mirrors lines 746-790 for one feature: build every location part, sort the
parts by `(start, end, strand)` — ascending normally, descending when the
feature's own orientation is SO_REVERSE (Python's stable list.sort is modelled by
the stable insertionSort) — flatten the start/end positions of the sorted parts
into feat_loc_positions, and wrap the parts in a join CompoundLocation exactly
when there is more than one. -/
def buildFeatureLocation (feat_orientation : String) (locations : List SbolLocation) :
    Except String (GBFeatureLocation × List FeatLocPart × List Int) := do
  let parts ← locations.mapM buildLocPart
  let sorted :=
    if feat_orientation = SO_REVERSE then parts.insertionSort locLeDesc
    else parts.insertionSort locLeAsc
  let feat_loc_positions := sorted.foldl (fun acc loc => acc ++ [loc.start, loc.end_]) []
  let feat_loc_object :=
    if sorted.length > 1 then GBFeatureLocation.compound sorted "join"
    else
      match sorted with
      | [p] => GBFeatureLocation.single p
      | _ => GBFeatureLocation.noneLoc
  Except.ok (feat_loc_object, sorted, feat_loc_positions)

/-- The data of one emitted SeqFeature read by the final record-level sort
(lines 821-824): its feat_order position list, strand, qualifier dict and type. -/
structure OutFeature where
  positions : List Int
  strand : Int
  qualifiers : List (String × String)
  type : String
deriving DecidableEq

/-- The composite key `(feat_order[feat], feat.strand, len(feat.qualifiers),
feat.type)` of the final sort, compared as a lexicographic tuple: the position
list compares lexicographically and the type strings compare by code points, as
in Python. -/
def featSortKey (f : OutFeature) : Lex (List Int × Lex (Int × Lex (Nat × List Char))) :=
  toLex (f.positions, toLex (f.strand, toLex (f.qualifiers.length, f.type.data)))

/-- Ascending comparison by the composite feature key. -/
def featLe (f g : OutFeature) : Prop := featSortKey f ≤ featSortKey g

instance : DecidableRel featLe :=
  fun f g => inferInstanceAs (Decidable (featSortKey f ≤ featSortKey g))

/-- Mirrors the final canonicalisation sort of the record's feature list
(lines 821-824), a stable ascending sort by the composite key. -/
def sortRecordFeatures (feats : List OutFeature) : List OutFeature :=
  feats.insertionSort featLe

/- Concrete inputs for the C7 witness. -/

/-- A forward Range 1..100 with no fuzz codes. -/
def locA : SbolLocation := SbolLocation.range 1 100 SO_FORWARD none none

/-- A reverse Range 200..250 with no fuzz codes. -/
def locB : SbolLocation := SbolLocation.range 200 250 SO_REVERSE none none

/-- The exported part for `locA`. -/
def partA : FeatLocPart :=
  { start := 1, startClass := PositionClass.exact, end_ := 100,
    endClass := PositionClass.exact, strand := 1 }

/-- The exported part for `locB`. -/
def partB : FeatLocPart :=
  { start := 200, startClass := PositionClass.exact, end_ := 250,
    endClass := PositionClass.exact, strand := -1 }

/- ===== Driver plasmid pre-pass (convert_to_genbank.py, lines 98-151) ===== -/

/-- The SO term for plasmid, as returned by the external ontology lookup
`tyto.SO.get_uri_by_term('plasmid')`. -/
def SO_PLASMID : String := "https://identifiers.org/SO:0000155"

/-- A SubComponent feature of a driver-level Component (only the field the
pre-pass reads). -/
structure SubComponentF where
  instance_of : String
deriving DecidableEq

/-- A feature of a driver-level Component: a SubComponent or any other kind. -/
inductive CFeature
  | sub (s : SubComponentF)
  | other
deriving DecidableEq

/-- A driver-level Component (only the fields the pre-pass reads and writes). -/
structure DComponent where
  display_id : String
  description : Option String
  roles : List String
  features : List CFeature
deriving DecidableEq

/-- Mirrors component_is_circular_plasmid_with_inserts (convert_to_genbank.py
lines 99-102).  Despite the comment above it ("it's a plasmid if either it or its
direct subcomponent is"), the code classifies by SubComponents only: it returns
whether some SubComponent feature's referenced Component carries the plasmid
role; the Component's own roles are never consulted.  `lookup` models
`f.instance_of.lookup()` on a document where every reference resolves. -/
def component_is_circular_plasmid_with_inserts (plasmid : String)
    (lookup : String → DComponent) (component : DComponent) : Bool :=
  component.features.any (fun f =>
    match f with
    | CFeature.sub s => (lookup s.instance_of).roles.contains plasmid
    | CFeature.other => false)

/-- The backbone set built at line 144: the plasmid-role SubComponent features of
a Component (feature objects are distinct, so the set has one element per such
feature). -/
def backboneFeatures (plasmid : String) (lookup : String → DComponent)
    (p : DComponent) : List SubComponentF :=
  p.features.filterMap (fun f =>
    match f with
    | CFeature.sub s =>
      if (lookup s.instance_of).roles.contains plasmid then some s else none
    | CFeature.other => none)

/-- Whether a Component identity is referenced by a SubComponent of some
plasmid-classified Component of the document: the targets of the description
rewrite at lines 147-151. -/
def referencedByPlasmidInsert (plasmid : String) (lookup : String → DComponent)
    (objects : List DComponent) (cid : String) : Bool :=
  objects.any (fun p =>
    component_is_circular_plasmid_with_inserts plasmid lookup p &&
    p.features.any (fun f =>
      match f with
      | CFeature.sub s => s.instance_of == cid
      | CFeature.other => false))

/-- Mirrors the plasmid pre-pass of main (lines 142-151): collect the
plasmid-classified Components, assert each has precisely one plasmid-role
SubComponent (an AssertionError otherwise), then set the description of every
Component referenced by a SubComponent of a plasmid to that Component's own
display id.  The returned function is the document lookup after the mutation;
every write stores exactly `c.instance_of.lookup().display_id`, so the final
state does not depend on the iteration order of the Python set. -/
def plasmidPrePass (plasmid : String) (lookup : String → DComponent)
    (objects : List DComponent) : Except String (String → DComponent) :=
  if (objects.filter (component_is_circular_plasmid_with_inserts plasmid lookup)).all
      (fun p => (backboneFeatures plasmid lookup p).length = 1) then
    Except.ok (fun cid =>
      let c := lookup cid
      if referencedByPlasmidInsert plasmid lookup objects cid then
        { c with description := some c.display_id }
      else c)
  else
    Except.error "AssertionError: Only know how to convert plasmid constructs with precisely one plasmid feature"

/- Concrete documents for the C6 counterexample and witness. -/

/-- An insert Component carrying no plasmid role. -/
def insertComp : DComponent :=
  { display_id := "insert1", description := some "an insert", roles := [],
    features := [] }

/-- A Component that itself carries the plasmid role and whose one SubComponent
references a non-plasmid Component. -/
def selfPlasmidComp : DComponent :=
  { display_id := "p1", description := none, roles := [SO_PLASMID],
    features := [CFeature.sub { instance_of := "https://x/insert1" }] }

/-- The document lookup for the counterexample. -/
def lkpSelf : String → DComponent :=
  fun cid => if cid = "https://x/insert1" then insertComp else selfPlasmidComp

/-- A backbone Component carrying the plasmid role. -/
def backboneComp : DComponent :=
  { display_id := "vector1", description := none, roles := [SO_PLASMID],
    features := [] }

/-- A second insert Component. -/
def insert2Comp : DComponent :=
  { display_id := "insert2", description := some "d2", roles := [], features := [] }

/-- A plasmid construct with one backbone SubComponent and one insert
SubComponent. -/
def plasmidComp : DComponent :=
  { display_id := "plas", description := none, roles := [],
    features := [CFeature.sub { instance_of := "https://x/vector1" },
                 CFeature.sub { instance_of := "https://x/insert2" }] }

/-- The document lookup for the witness. -/
def lkpPlasmid : String → DComponent :=
  fun cid =>
    if cid = "https://x/vector1" then backboneComp
    else if cid = "https://x/insert2" then insert2Comp
    else plasmidComp

end GenBankSBOL3

namespace GenBankSBOL3

/- ===== Theorems ===== -/

/-- C1 counterexample: the claim says a Component lacking a Sequence is skipped and
produces no GenBank record; on the code, `compNoSeq` (which has no sequence
reference) still yields a record — `processComponent` returns it with `seq = None`
and marks the Component converted. -/
theorem c1_counterexample_record_emitted_without_sequence :
    compNoSeq.sequences = [] ∧
    processComponent (fun _ => none) compNoSeq =
      Except.ok { seq := none, id := "c0", description := none, name := "c0", status := true } := by
  exact ⟨rfl, rfl⟩

/-- C1 amended: for every Component given to convert_sbol3_to_genbank, the exporter
emits a GenBank record whenever the Component has at most one Sequence reference — a
Component lacking a Sequence is not skipped; it produces a record whose seq is None —
and raises a hard error (ValueError) exactly when the Component references more than
one Sequence. -/
theorem c1_amended_record_emission (find : String → Option SbolSequence) (obj : SbolComponent) :
    (obj.sequences.length ≤ 1 →
      ∃ r, processComponent find obj = Except.ok r ∧ r.status = true) ∧
    (1 < obj.sequences.length →
      ∃ e, processComponent find obj = Except.error e) := by
  constructor
  · intro hle
    match h : obj.sequences with
    | [] =>
      refine ⟨{ seq := none, id := obj.display_id, description := obj.description,
                name := obj.display_id, status := true }, ?_, rfl⟩
      simp only [processComponent, h]
      rfl
    | [sref] =>
      cases hf : find sref with
      | some s =>
        refine ⟨{ seq := some s.elements.toUpper, id := obj.display_id,
                  description := obj.description, name := obj.display_id, status := true }, ?_, rfl⟩
        simp only [processComponent, h]
        simp only [hf]
        rfl
      | none =>
        refine ⟨{ seq := none, id := obj.display_id, description := obj.description,
                  name := obj.display_id, status := true }, ?_, rfl⟩
        simp only [processComponent, h]
        simp only [hf]
        rfl
    | a :: b :: t =>
      rw [h] at hle
      simp at hle
  · intro hgt
    match h : obj.sequences with
    | [] => rw [h] at hgt; simp at hgt
    | [sref] => rw [h] at hgt; simp at hgt
    | a :: b :: t =>
      refine ⟨"ValueError: Component `" ++ obj.display_id ++
        "` of given SBOL3 document has more than 1 sequnces. This is invalid; a component may only have 1 or 0 sequences.", ?_⟩
      have hne : obj.sequences.length ≠ 1 := by rw [h]; simp
      have hgt' : obj.sequences.length > 1 := by rw [h]; simp
      simp [processComponent, hne, hgt']

/-- Witness for the C1 amended theorem: both branches exercised at concrete
Components (one sequence-less Component, one with two sequence references). -/
theorem c1_amended_record_emission_witness :
    (∃ r, processComponent (fun _ => none) compNoSeq = Except.ok r ∧ r.status = true) ∧
    (∃ e, processComponent (fun _ => none) compTwoSeqs = Except.error e) :=
  ⟨(c1_amended_record_emission (fun _ => none) compNoSeq).1 (by decide),
   (c1_amended_record_emission (fun _ => none) compTwoSeqs).2 (by decide)⟩

/-- C2 counterexample: the claim says a record with neither `topology` nor
`data_file_division` still imports with the linear SO type; on the code, the `elif`
indexes `record.annotations['data_file_division']` directly, so such a record raises
a KeyError and no Component types are computed at all. -/
theorem c2_counterexample_missing_division_key :
    recordTopology annEmpty = Except.error "KeyError: data_file_division" ∧
    recordCompTypes annEmpty = Except.error "KeyError: data_file_division" := by
  exact ⟨rfl, rfl⟩

/-- C2 amended: the topology assigned by convert_genbank_to_sbol3 is the value of
`annotations.topology` when present; else, when `annotations.data_file_division` is
present, its value when that value is linear or circular and otherwise the default
linear; a record carrying neither annotation raises a KeyError instead of defaulting
to linear.  The Component's types are DNA plus the SO linear type when the topology
string is linear and the SO circular type otherwise; in particular a record with
`topology` absent but `data_file_division = circular` imports with the circular SO
type. -/
theorem c2_amended_topology_rule (ann : String → Option String) :
    (∀ t, ann "topology" = some t → recordTopology ann = Except.ok t) ∧
    (ann "topology" = none → ∀ d, ann "data_file_division" = some d →
      recordTopology ann = Except.ok (if d = "circular" ∨ d = "linear" then d else "linear")) ∧
    (ann "topology" = none → ann "data_file_division" = none →
      ∃ e, recordTopology ann = Except.error e) ∧
    (∀ t, recordTopology ann = Except.ok t →
      recordCompTypes ann = Except.ok (COMP_TYPES ++ (if t = "linear" then [SO_LINEAR] else [SO_CIRCULAR]))) := by
  refine ⟨?_, ?_, ?_, ?_⟩
  · intro t ht
    simp [recordTopology, ht]
  · intro hnone d hd
    simp only [recordTopology, hnone, hd]
    split_ifs with h <;> simp [h]
  · intro hnone hdnone
    exact ⟨"KeyError: data_file_division", by simp [recordTopology, hnone, hdnone]⟩
  · intro t ht
    simp [recordCompTypes, ht, extraCompTypes, Except.map]

/-- Witness for the C2 amended theorem: all four branches exercised concretely; a
record with only `data_file_division = circular` gets topology circular and the
circular SO type. -/
theorem c2_amended_topology_rule_witness :
    recordTopology annTopoCircular = Except.ok "circular" ∧
    recordTopology annDivCircular = Except.ok "circular" ∧
    (∃ e, recordTopology annEmpty = Except.error e) ∧
    recordCompTypes annDivCircular = Except.ok [SBO_DNA, SO_CIRCULAR] := by
  refine ⟨(c2_amended_topology_rule annTopoCircular).1 "circular" rfl, ?_, ?_, ?_⟩
  · have h := (c2_amended_topology_rule annDivCircular).2.1 rfl "circular" rfl
    simpa using h
  · exact (c2_amended_topology_rule annEmpty).2.2.1 rfl rfl
  · have htop : recordTopology annDivCircular = Except.ok "circular" := by
      have h := (c2_amended_topology_rule annDivCircular).2.1 rfl "circular" rfl
      simpa using h
    have h := (c2_amended_topology_rule annDivCircular).2.2.2 "circular" htop
    simpa [COMP_TYPES] using h

/-- C10 confirmed: a Component whose single sequence reference does not resolve to a
Sequence object is neither skipped nor an error: the exporter emits a record whose
seq is None and still marks the Component as successfully converted (status true). -/
theorem c10_dangling_sequence_reference (find : String → Option SbolSequence)
    (obj : SbolComponent) (sref : String)
    (hseq : obj.sequences = [sref]) (hfind : find sref = none) :
    processComponent find obj =
      Except.ok { seq := none, id := obj.display_id, description := obj.description,
                  name := obj.display_id, status := true } := by
  simp only [processComponent, hseq]
  simp only [hfind]
  rfl

/-- Witness for C10 at the concrete dangling-reference Component. -/
theorem c10_dangling_sequence_reference_witness :
    processComponent (fun _ => none) compDangling =
      Except.ok { seq := none, id := "c1", description := some "a part",
                  name := "c1", status := true } :=
  c10_dangling_sequence_reference (fun _ => none) compDangling "https://x/s1" rfl rfl

/-- Helper: the position-code inequality test used by the fuzzy condition agrees
with the endpoint not being an ExactPosition. -/
theorem sbol_position_ne_one (c : PositionClass) :
    ((SBOL_LOCATION_POSITION c != 1) = true) ↔ c ≠ PositionClass.exact := by
  cases c <;> simp [SBOL_LOCATION_POSITION]

/-- Helper: one update step of the fuzzy flag, as a propositional equivalence. -/
theorem fuzzy_step_iff (ff : Bool) (sc ec : PositionClass) :
    ((if (!ff && (SBOL_LOCATION_POSITION ec != 1)) ||
        (SBOL_LOCATION_POSITION sc != 1) then true else ff) = true) ↔
      (ff = true ∨ (sc ≠ PositionClass.exact ∨ ec ≠ PositionClass.exact)) := by
  cases ff <;> cases sc <;> cases ec <;> decide

/-- Helper: the fuzzy flag computed by the location loop is true exactly when it
started true or some part with distinct endpoints has a non-Exact endpoint class. -/
theorem convertLocParts_fuzzy (parts : List GBLocPart) (ff : Bool)
    (acc : List SbolLocation) :
    ((convertLocParts parts ff acc).2 = true ↔
      (ff = true ∨ ∃ p ∈ parts, p.start ≠ p.end_ ∧
        (p.startClass ≠ PositionClass.exact ∨ p.endClass ≠ PositionClass.exact))) := by
  induction parts generalizing ff acc with
  | nil => simp [convertLocParts]
  | cons p rest ih =>
    simp only [convertLocParts]
    by_cases hpe : p.start = p.end_
    · rw [if_pos hpe, ih]
      simp only [List.mem_cons]
      constructor
      · rintro (hf | ⟨q, hq, hqs⟩)
        · exact Or.inl hf
        · exact Or.inr ⟨q, Or.inr hq, hqs⟩
      · rintro (hf | ⟨q, hq1 | hq2, hqs⟩)
        · exact Or.inl hf
        · exact absurd (by rw [hq1]; exact hpe) hqs.1
        · exact Or.inr ⟨q, hq2, hqs⟩
    · rw [if_neg hpe, ih, fuzzy_step_iff]
      simp only [List.mem_cons]
      constructor
      · rintro ((hf | hcls) | ⟨q, hq, hqs⟩)
        · exact Or.inl hf
        · exact Or.inr ⟨p, Or.inl rfl, hpe, hcls⟩
        · exact Or.inr ⟨q, Or.inr hq, hqs⟩
      · rintro (hf | ⟨q, hq1 | hq2, hqs⟩)
        · exact Or.inl (Or.inl hf)
        · subst hq1; exact Or.inl (Or.inr hqs.2)
        · exact Or.inr ⟨q, hq2, hqs⟩

/-- Helper: a successful feature import returns exactly the fuzzy flag computed by
the location loop. -/
theorem importFeature_fuzzy_eq (gb2so : String → Option String) (ind : Nat)
    (gb_feat : GBFeature) (feat : FeatureGenBankExtension) (fz : Bool)
    (h : importFeature gb2so ind gb_feat = Except.ok (feat, fz)) :
    fz = (convertLocParts gb_feat.locationParts false []).2 := by
  unfold importFeature at h
  simp only [bind, Except.bind] at h
  repeat' split at h
  all_goals simp_all

/-- C3 confirmed: a successfully imported GenBank feature is fuzzy exactly when some
Range part (distinct endpoints) of its location has a non-Exact start or end
position class; the routing step appends a fuzzy feature to fuzzy_features and a
non-fuzzy one to features, and never to both. -/
theorem c3_fuzzy_feature_routing (gb2so : String → Option String) (ind : Nat)
    (gb_feat : GBFeature) (feat : FeatureGenBankExtension) (fz : Bool)
    (features fuzzy_features : List FeatureGenBankExtension)
    (h : importFeature gb2so ind gb_feat = Except.ok (feat, fz)) :
    (fz = true ↔ ∃ p ∈ gb_feat.locationParts, p.start ≠ p.end_ ∧
      (p.startClass ≠ PositionClass.exact ∨ p.endClass ≠ PositionClass.exact)) ∧
    routeStep features fuzzy_features (feat, fz) =
      (if fz then (features, fuzzy_features ++ [feat])
       else (features ++ [feat], fuzzy_features)) := by
  have hfz := importFeature_fuzzy_eq gb2so ind gb_feat feat fz h
  constructor
  · rw [hfz, convertLocParts_fuzzy]
    simp
  · cases fz <;> simp [routeStep]

/-- Witness for C3: a feature with a BeforePosition start and ExactPosition end is
fuzzy and routed to fuzzy_features; the exact-endpoints feature is routed to
features. -/
theorem c3_fuzzy_feature_routing_witness :
    ((true : Bool) = true ↔ ∃ p ∈ featBeforeStart.locationParts, p.start ≠ p.end_ ∧
      (p.startClass ≠ PositionClass.exact ∨ p.endClass ≠ PositionClass.exact)) ∧
    routeStep [] [] (featBeforeStartImported, true) =
      (if true then ([], [] ++ [featBeforeStartImported])
       else ([] ++ [featBeforeStartImported], [])) :=
  c3_fuzzy_feature_routing gb2soCdsOnly 0 featBeforeStart featBeforeStartImported true
    [] [] rfl

/-- C5: left side of the round trip.  On the code, an unknown feature type whose
feature lacks a label qualifier raises a KeyError while formatting the
lookup-miss warning (line 694 indexes `gb_feat.qualifiers['label'][0]`), so the
conversion aborts instead of warning and continuing; with a label present the
default role SO:0000110 is assigned and conversion continues, and on export an
unmapped role becomes the default misc_feature. -/
theorem c5_unknown_feature_type_behaviour :
    importFeature emptyOntologyMap 0 featUnknownNoLabel =
      Except.error "KeyError: label" ∧
    (∃ feat fz, importFeature emptyOntologyMap 0 featUnknownWithLabel =
      Except.ok (feat, fz) ∧ feat.roles = [SO_URI_HEAD ++ DEFAULT_SO_TERM]) ∧
    exportFeatureRole emptyOntologyMap [SO_URI_HEAD ++ DEFAULT_SO_TERM] =
      Except.ok DEFAULT_GB_TERM := by
  refine ⟨by rfl, ⟨_, _, by rfl, by rfl⟩, by rfl⟩

/-- Helper: a successful numeric-prefix sort preserves the list length. -/
theorem sortByNumKey_length (l l' : List String) (h : sortByNumKey l = some l') :
    l'.length = l.length := by
  unfold sortByNumKey at h
  split at h
  · simp only [Option.some.injEq] at h
    subst h
    exact (List.perm_insertionSort _ l).length_eq
  · simp at h

/-- Helper: the rebuild loop hits the values list out of bounds whenever the values
list is shorter than the keys list, whatever the entries hold. -/
theorem structuredPairsLoop_overflow (ks : List String) :
    ∀ (vs : List String) (acc : List (String × String)), vs.length < ks.length →
      structuredPairsLoop ks vs acc = none := by
  induction ks with
  | nil => intro vs acc h; simp at h
  | cons k ks ih =>
    intro vs acc h
    cases hk : afterDoubleColon k with
    | none => simp [structuredPairsLoop, hk]
    | some key =>
      cases vs with
      | nil => simp [structuredPairsLoop, hk]
      | cons v vs' =>
        cases hv : afterDoubleColon v with
        | none => simp [structuredPairsLoop, hk, hv]
        | some value =>
          simp only [structuredPairsLoop, hk, hv]
          apply ih
          simp only [List.length_cons] at h
          omega

/-- C9 confirmed: for any StructuredComment side-car whose structured_values list is
shorter than its structured_keys list, the exporter's rebuild of the
structured-comment annotation indexes the values list past its end (no length check
exists), so the rebuild — and with it the whole export of the record — raises an
out-of-bounds IndexError instead of skipping or warning. -/
theorem c9_structured_comment_value_overflow (keys values : List String)
    (obj : ComponentGenBankExtension) (heading component : Option String)
    (h : values.length < keys.length) :
    rebuildStructuredComment keys values = none ∧
    resetExtraPropertiesInGenbank obj []
      [{ heading := heading, component := component, structured_keys := keys,
         structured_values := values }] =
      Except.error "IndexError: list index out of range" := by
  have hre : rebuildStructuredComment keys values = none := by
    unfold rebuildStructuredComment
    cases h1 : sortByNumKey keys with
    | none => rfl
    | some sk =>
      cases h2 : sortByNumKey values with
      | none => rfl
      | some sv =>
        apply structuredPairsLoop_overflow
        rw [sortByNumKey_length values sv h2, sortByNumKey_length keys sk h1]
        exact h
  refine ⟨hre, ?_⟩
  simp [resetExtraPropertiesInGenbank, hre, bind, Except.bind, pure, Except.pure,
    List.mapM, List.mapM.loop]

/-- Witness for C9 at a concrete side-car with two keys and one value. -/
theorem c9_structured_comment_value_overflow_witness :
    rebuildStructuredComment ["1::k1", "2::k2"] ["1::v1"] = none ∧
    resetExtraPropertiesInGenbank compExtSample []
      [{ heading := some "H", component := some "c4",
         structured_keys := ["1::k1", "2::k2"], structured_values := ["1::v1"] }] =
      Except.error "IndexError: list index out of range" :=
  c9_structured_comment_value_overflow ["1::k1", "2::k2"] ["1::v1"] compExtSample
    (some "H") (some "c4") (by decide)

/-- C4: on export the code writes the record's sequence-version annotation twice:
once under the misspelled key `sequnce_version` carrying the Component's stored
version (line 583), and once under the correctly spelled key `sequence_version`
set to the constant default 1 (line 636).  The claim (which the spec marks as the
intended behaviour) says no misspelled key appears; evaluating the exporter at a
Component storing version 5 exhibits both keys. -/
theorem c4_misspelled_sequence_version_key :
    ∃ r, resetExtraPropertiesInGenbank compExtSample [] [] = Except.ok r ∧
      lookupAnn r.annotations "sequnce_version" = some (AnnValue.intOpt (some 5)) ∧
      lookupAnn r.annotations "sequence_version" = some (AnnValue.intVal 1) :=
  ⟨_, rfl, rfl, rfl⟩

/-- C7 confirmed: on export of a feature's locations the parts are sorted by the
key (start, end, strand) — ascending when the feature's outer orientation is
forward, descending when it is reverse — the sorted parts are a permutation of the
built parts, and a CompoundLocation (join) is produced exactly when there is more
than one part, a single part being emitted as a plain FeatureLocation. -/
theorem c7_export_location_sorting (feat_orientation : String)
    (locations : List SbolLocation) (locObj : GBFeatureLocation)
    (sorted : List FeatLocPart) (positions : List Int)
    (h : buildFeatureLocation feat_orientation locations =
      Except.ok (locObj, sorted, positions)) :
    (feat_orientation = SO_FORWARD → sorted.Pairwise locLeAsc) ∧
    (feat_orientation = SO_REVERSE → sorted.Pairwise locLeDesc) ∧
    (∀ parts, locations.mapM buildLocPart = Except.ok parts → sorted.Perm parts) ∧
    (1 < sorted.length → locObj = GBFeatureLocation.compound sorted "join") ∧
    (∀ p, sorted = [p] → locObj = GBFeatureLocation.single p) := by
  unfold buildFeatureLocation at h
  simp only [bind, Except.bind] at h
  cases hm : locations.mapM buildLocPart with
  | error e => rw [hm] at h; simp at h
  | ok parts =>
    rw [hm] at h
    simp only [Except.ok.injEq, Prod.mk.injEq] at h
    obtain ⟨hobj, hsorted, hpos⟩ := h
    refine ⟨?_, ?_, ?_, ?_, ?_⟩
    · intro hfwd
      have hs := hsorted.symm
      rw [hfwd] at hs
      rw [if_neg (by decide : ¬ ((SO_FORWARD : String) = SO_REVERSE))] at hs
      rw [hs]
      haveI : IsTotal FeatLocPart locLeAsc := ⟨fun a b => le_total _ _⟩
      haveI : IsTrans FeatLocPart locLeAsc := ⟨fun a b c hab hbc => le_trans hab hbc⟩
      exact List.sorted_insertionSort locLeAsc parts
    · intro hrev
      have hs := hsorted.symm
      rw [hrev] at hs
      rw [if_pos rfl] at hs
      rw [hs]
      haveI : IsTotal FeatLocPart locLeDesc :=
        ⟨fun a b => (le_total (locSortKey a) (locSortKey b)).symm⟩
      haveI : IsTrans FeatLocPart locLeDesc :=
        ⟨fun a b c hab hbc => le_trans hbc hab⟩
      exact List.sorted_insertionSort locLeDesc parts
    · intro parts' hp
      injection hp with hp'
      subst hp'
      have hs := hsorted.symm
      by_cases hrev : feat_orientation = SO_REVERSE
      · rw [if_pos hrev] at hs; rw [hs]; exact List.perm_insertionSort _ _
      · rw [if_neg hrev] at hs; rw [hs]; exact List.perm_insertionSort _ _
    · intro hlen
      rw [hsorted] at hobj
      rw [if_pos hlen] at hobj
      exact hobj.symm
    · intro p hp1
      rw [hsorted, hp1] at hobj
      simp at hobj
      exact hobj.symm

/-- Witness for C7 at a concrete reverse-oriented feature with the two parts
1..100 (forward) and 200..250 (reverse): export sorts them descending and emits a
join CompoundLocation. -/
theorem c7_export_location_sorting_witness :
    buildFeatureLocation SO_REVERSE [locA, locB] =
      Except.ok (GBFeatureLocation.compound [partB, partA] "join", [partB, partA],
        [200, 250, 1, 100]) ∧
    List.Pairwise locLeDesc [partB, partA] := by
  refine ⟨by rfl, ?_⟩
  exact (c7_export_location_sorting SO_REVERSE [locA, locB]
    (GBFeatureLocation.compound [partB, partA] "join") [partB, partA]
    [200, 250, 1, 100] (by rfl)).2.1 rfl

/-- C8 confirmed: after export of a record's features the feature list is replaced
by a stable ascending sort under the composite key (location start/end positions
of the sorted parts, strand, number of qualifiers, feature type string): the
result is a permutation of the emitted features and is pairwise ordered by that
key. -/
theorem c8_record_feature_sort (feats : List OutFeature) :
    (sortRecordFeatures feats).Perm feats ∧
    (sortRecordFeatures feats).Pairwise featLe := by
  constructor
  · exact List.perm_insertionSort featLe feats
  · haveI : IsTotal OutFeature featLe := ⟨fun a b => le_total _ _⟩
    haveI : IsTrans OutFeature featLe := ⟨fun a b c hab hbc => le_trans hab hbc⟩
    exact List.sorted_insertionSort featLe feats

/-- C6 counterexample: `selfPlasmidComp` itself carries the plasmid SO role, so
under the claim it is a circular plasmid construct whose pre-pass must assert
exactly one plasmid-role SubComponent (it has none — a hard error) and rewrite
its insert's description; the code classifies it as not a plasmid at all, the
pre-pass succeeds, and the insert's description stays "an insert" instead of its
display id "insert1". -/
theorem c6_counterexample_self_plasmid_ignored :
    SO_PLASMID ∈ selfPlasmidComp.roles ∧
    component_is_circular_plasmid_with_inserts SO_PLASMID lkpSelf selfPlasmidComp = false ∧
    (∃ lookup2, plasmidPrePass SO_PLASMID lkpSelf [selfPlasmidComp] = Except.ok lookup2 ∧
      (lookup2 "https://x/insert1").description = some "an insert" ∧
      (lookup2 "https://x/insert1").description ≠
        some (lkpSelf "https://x/insert1").display_id) := by
  refine ⟨by decide, by decide, ⟨_, rfl, by rfl, by decide⟩⟩

/-- C6 amended: the pre-pass treats a Component as a circular plasmid construct
exactly when at least one of its SubComponents references a Component carrying
the plasmid SO role (the Component's own roles are not consulted); it succeeds
exactly when every such plasmid construct has precisely one plasmid-role
SubComponent (a hard AssertionError otherwise); and after a successful pre-pass
the description of every Component referenced by one of a plasmid's
SubComponents equals that referenced Component's display id. -/
theorem c6_amended_plasmid_pre_pass (plasmid : String) (lookup : String → DComponent)
    (objects : List DComponent) :
    ((plasmidPrePass plasmid lookup objects).isOk = true ↔
      ∀ p ∈ objects, component_is_circular_plasmid_with_inserts plasmid lookup p = true →
        (backboneFeatures plasmid lookup p).length = 1) ∧
    (∀ lookup2, plasmidPrePass plasmid lookup objects = Except.ok lookup2 →
      ∀ p ∈ objects, component_is_circular_plasmid_with_inserts plasmid lookup p = true →
        ∀ s : SubComponentF, CFeature.sub s ∈ p.features →
          (lookup2 s.instance_of).description =
            some (lookup s.instance_of).display_id) := by
  constructor
  · unfold plasmidPrePass
    by_cases hall : ((objects.filter
        (component_is_circular_plasmid_with_inserts plasmid lookup)).all
        (fun p => (backboneFeatures plasmid lookup p).length = 1)) = true
    · rw [if_pos hall]
      constructor
      · intro _ p hp hcls
        have := List.all_eq_true.mp hall p (List.mem_filter.mpr ⟨hp, hcls⟩)
        simpa using this
      · intro _
        rfl
    · rw [if_neg hall]
      constructor
      · intro hok
        simp [Except.isOk, Except.toBool] at hok
      · intro hco
        exfalso
        apply hall
        rw [List.all_eq_true]
        intro p hpf
        have hm := List.mem_filter.mp hpf
        simpa using hco p hm.1 hm.2
  · intro lookup2 h12 p hp hcls s hs
    unfold plasmidPrePass at h12
    split at h12
    · injection h12 with h12'
      subst h12'
      have href : referencedByPlasmidInsert plasmid lookup objects s.instance_of = true := by
        unfold referencedByPlasmidInsert
        rw [List.any_eq_true]
        refine ⟨p, hp, ?_⟩
        rw [Bool.and_eq_true]
        refine ⟨hcls, ?_⟩
        rw [List.any_eq_true]
        exact ⟨CFeature.sub s, hs, by simp⟩
      simp [href]
    · exact absurd h12 (by simp)

/-- Witness for the C6 amended theorem at a concrete plasmid document: the
pre-pass succeeds (exactly one backbone) and both SubComponent-referenced
Components get their display ids as descriptions. -/
theorem c6_amended_plasmid_pre_pass_witness :
    (plasmidPrePass SO_PLASMID lkpPlasmid [plasmidComp]).isOk = true ∧
    (∃ lookup2, plasmidPrePass SO_PLASMID lkpPlasmid [plasmidComp] = Except.ok lookup2 ∧
      (lookup2 "https://x/insert2").description = some "insert2" ∧
      (lookup2 "https://x/vector1").description = some "vector1") := by
  refine ⟨?_, ⟨_, rfl, ?_, ?_⟩⟩
  · exact (c6_amended_plasmid_pre_pass SO_PLASMID lkpPlasmid [plasmidComp]).1.mpr
      (by decide)
  · have h := (c6_amended_plasmid_pre_pass SO_PLASMID lkpPlasmid [plasmidComp]).2
      _ rfl plasmidComp (by simp) (by decide) ⟨"https://x/insert2"⟩ (by decide)
    simpa [lkpPlasmid, insert2Comp] using h
  · have h := (c6_amended_plasmid_pre_pass SO_PLASMID lkpPlasmid [plasmidComp]).2
      _ rfl plasmidComp (by simp) (by decide) ⟨"https://x/vector1"⟩ (by decide)
    simpa [lkpPlasmid, backboneComp] using h

end GenBankSBOL3
